import Mathlib

/- Verification development for the resource-tree orchestration core of
   takos-call: the event-emitting RoomManager / Room / Peer hierarchy of
   src/room-manager.ts together with the lookup handlers of the message
   handler. JS Map objects are modelled as association lists with unique
   keys (each insertion in the source uses the engine-assigned id as the
   key). The mediasoup engine is an external collaborator; every awaited
   engine call takes an explicit reply oracle, and every engine handle
   carries a closed flag plus a closeFails flag telling whether the
   engine rejects its close call. -/

/-- Model of a JS `Map` with string keys: an association list in
insertion order. `set` overwrites in place, `delete` removes the entry. -/
abbrev JsMap (α : Type) : Type := List (String × α)

/-- The empty map (`new Map()`). -/
def JsMap.empty {α : Type} : JsMap α := []

/-- `map.get(key)`, returning `none` when absent. -/
def JsMap.get {α : Type} : JsMap α → String → Option α
  | [], _ => none
  | (k, v) :: rest, key => if k = key then some v else JsMap.get rest key

/-- `map.has(key)`. -/
def JsMap.has {α : Type} (m : JsMap α) (key : String) : Bool :=
  (m.get key).isSome

/-- `map.set(key, v)`: overwrite in place, or append at the end. -/
def JsMap.set {α : Type} : JsMap α → String → α → JsMap α
  | [], key, v => [(key, v)]
  | (k, w) :: rest, key, v =>
    if k = key then (k, v) :: rest else (k, w) :: JsMap.set rest key v

/-- `map.delete(key)`. On unique-key maps (the only ones the source
builds) this is removal of the single matching entry. -/
def JsMap.delete {α : Type} (m : JsMap α) (key : String) : JsMap α :=
  m.filter (fun e => e.1 != key)

/-- Map a function over the values, keeping keys and order. -/
def JsMap.mapValues {α β : Type} (f : α → β) (m : JsMap α) : JsMap β :=
  m.map (fun e => (e.1, f e.2))

/-- `map.values()` as a list in insertion order. -/
def JsMap.values {α : Type} (m : JsMap α) : List α := m.map Prod.snd

theorem JsMap.get_set {α : Type} (m : JsMap α) (k key : String) (v : α) :
    (m.set key v).get k = if k = key then some v else m.get k := by
  induction m with
  | nil =>
    simp only [JsMap.set, JsMap.get]
    by_cases h : k = key
    · subst h; simp
    · simp [h, Ne.symm h]
  | cons e rest ih =>
    obtain ⟨a, b⟩ := e
    simp only [JsMap.set]
    by_cases hak : a = key
    · subst hak
      simp only [if_pos rfl, JsMap.get]
      by_cases hka : a = k
      · subst hka; simp
      · simp [hka, Ne.symm hka]
    · rw [if_neg hak]
      simp only [JsMap.get, ih]
      by_cases hka : a = k
      · subst hka
        simp [hak]
      · simp [hka]

theorem JsMap.get_delete {α : Type} (m : JsMap α) (k key : String) :
    (m.delete key).get k = if k = key then none else m.get k := by
  induction m with
  | nil => simp [JsMap.delete, JsMap.get]
  | cons e rest ih =>
    obtain ⟨a, b⟩ := e
    simp only [JsMap.delete, List.filter_cons] at ih ⊢
    by_cases hak : a = key
    · subst hak
      simp only [bne_self_eq_false, Bool.false_eq_true, if_false]
      rw [ih]
      by_cases hka : k = a
      · subst hka; simp
      · simp [JsMap.get, hka, Ne.symm hka]
    · have hcond : (a != key) = true := by simp [hak]
      simp only [hcond, if_true]
      simp only [JsMap.get, ih]
      by_cases hka : a = k
      · subst hka
        simp [hak]
      · simp [hka]

theorem JsMap.get_none_of_has_false {α : Type} (m : JsMap α) (key : String)
    (h : m.has key = false) : m.get key = none := by
  unfold JsMap.has at h
  cases hm : m.get key with
  | none => rfl
  | some v => rw [hm] at h; simp at h

/-- Media kind of a producer or consumer. -/
inductive MediaKind
  | audio
  | video
deriving DecidableEq

/-- Transport direction argument of createTransport. -/
inductive Direction
  | send
  | recv
deriving DecidableEq

/-- Error kinds of the core, classifying the `new Error(message)` throw
sites of the source by the message they carry. -/
inductive Err
  | duplicateKey (msg : String)
  | notFound (msg : String)
  | notInitialized (msg : String)
  | engineError
deriving DecidableEq

/-- Snapshot returned for a transport (id plus negotiated parameters,
kept opaque as strings). -/
structure TransportInfo where
  id : String
  iceParameters : String
  iceCandidates : String
  dtlsParameters : String
  sctpParameters : Option String
deriving DecidableEq

/-- Snapshot returned for a producer. -/
structure ProducerInfo where
  id : String
  kind : MediaKind
  rtpParameters : String
deriving DecidableEq

/-- Snapshot returned for a consumer. -/
structure ConsumerInfo where
  id : String
  producerId : String
  kind : MediaKind
  rtpParameters : String
deriving DecidableEq

/-- Peer snapshot: id plus info maps for all three resource kinds. -/
structure PeerInfo where
  id : String
  transports : JsMap TransportInfo
  producers : JsMap ProducerInfo
  consumers : JsMap ConsumerInfo
deriving DecidableEq

/-- Room snapshot: id plus peer snapshots. -/
structure RoomInfo where
  id : String
  peers : JsMap PeerInfo
deriving DecidableEq

/-- Engine transport handle owned by a Peer. `closed` is the engine-side
closed flag; `closeFails` tells whether the engine rejects close(). -/
structure TransportHandle where
  id : String
  iceParameters : String
  iceCandidates : String
  dtlsParameters : String
  sctpParameters : Option String
  closed : Bool
  closeFails : Bool
deriving DecidableEq

/-- Engine producer handle owned by a Peer. -/
structure ProducerHandle where
  id : String
  kind : MediaKind
  rtpParameters : String
  paused : Bool
  closed : Bool
  closeFails : Bool
deriving DecidableEq

/-- Engine consumer handle owned by a Peer. -/
structure ConsumerHandle where
  id : String
  producerId : String
  kind : MediaKind
  rtpParameters : String
  paused : Bool
  closed : Bool
  closeFails : Bool
deriving DecidableEq

def TransportHandle.info (t : TransportHandle) : TransportInfo :=
  ⟨t.id, t.iceParameters, t.iceCandidates, t.dtlsParameters, t.sctpParameters⟩

def ProducerHandle.info (p : ProducerHandle) : ProducerInfo :=
  ⟨p.id, p.kind, p.rtpParameters⟩

def ConsumerHandle.info (c : ConsumerHandle) : ConsumerInfo :=
  ⟨c.id, c.producerId, c.kind, c.rtpParameters⟩

/-- Engine router capability of a Room. `rtpCapabilities` is opaque;
`compat` lists the (producerId, rtpCapabilities) pairs the engine
reports as consumable. -/
structure Router where
  rtpCapabilities : String
  compat : List (String × String)
deriving DecidableEq

/-- `router.canConsume({producerId, rtpCapabilities})`. -/
def Router.canConsume (r : Router) (producerId rtpCapabilities : String) : Bool :=
  r.compat.contains (producerId, rtpCapabilities)

/-- Events emitted by a Peer (source: Peer class `this.emit` sites). -/
inductive PeerEvent
  | close
  | transportClosed (transportId : String)
  | producerClosed (producerId : String)
  | consumerClosed (consumerId : String)
  | transportCreated (transportId : String) (direction : Direction) (info : TransportInfo)
  | producerCreated (producerId transportId : String) (kind : MediaKind) (info : ProducerInfo)
  | consumerCreated (consumerId producerId transportId : String) (info : ConsumerInfo)
deriving DecidableEq

/-- Events emitted by a Room (source: Room class `this.emit` sites). -/
inductive RoomEvent
  | close
  | peerAdded (peerId : String) (info : PeerInfo)
  | peerClosed (peerId : String)
  | transportClosed (peerId transportId : String)
  | producerClosed (peerId producerId : String)
  | consumerClosed (peerId consumerId : String)
  | transportCreated (peerId transportId : String) (direction : Direction) (info : TransportInfo)
  | producerCreated (peerId producerId transportId : String) (kind : MediaKind) (info : ProducerInfo)
  | consumerCreated (peerId consumerId producerId transportId : String) (info : ConsumerInfo)
deriving DecidableEq

/-- Events emitted by the RoomManager (Registry boundary). The
`peerAdded` constructor is what the event sink in main.ts subscribes to
on the manager; as proved below, the manager never produces it. -/
inductive RegistryEvent
  | roomCreated (roomId : String) (info : RoomInfo)
  | roomClosed (roomId : String)
  | peerAdded (roomId peerId : String) (info : PeerInfo)
  | peerClosed (roomId peerId : String)
  | transportClosed (roomId peerId transportId : String)
  | producerClosed (roomId peerId producerId : String)
  | consumerClosed (roomId peerId consumerId : String)
  | transportCreated (roomId peerId transportId : String) (direction : Direction) (info : TransportInfo)
  | producerCreated (roomId peerId producerId transportId : String) (kind : MediaKind) (info : ProducerInfo)
  | consumerCreated (roomId peerId consumerId producerId transportId : String) (info : ConsumerInfo)
deriving DecidableEq

/-- The listener set Room.addPeer registers on each new Peer: every peer
event is re-emitted at room level with `peerId` attached (seven `on`
registrations, all peer events covered). -/
def forwardPeerEvent (peerId : String) : PeerEvent → RoomEvent
  | .close => .peerClosed peerId
  | .transportClosed t => .transportClosed peerId t
  | .producerClosed pr => .producerClosed peerId pr
  | .consumerClosed c => .consumerClosed peerId c
  | .transportCreated t d i => .transportCreated peerId t d i
  | .producerCreated pr t k i => .producerCreated peerId pr t k i
  | .consumerCreated c pr t i => .consumerCreated peerId c pr t i

/-- The listener set RoomManager.createRoom registers on each new Room:
eight `on` registrations (close, peerClosed, transportClosed,
producerClosed, consumerClosed, transportCreated, producerCreated,
consumerCreated). There is no listener for `peerAdded`, so that room
event produces nothing at the manager boundary (`none`). -/
def forwardRoomEvent (roomId : String) : RoomEvent → Option RegistryEvent
  | .close => some (.roomClosed roomId)
  | .peerClosed p => some (.peerClosed roomId p)
  | .transportClosed p t => some (.transportClosed roomId p t)
  | .producerClosed p pr => some (.producerClosed roomId p pr)
  | .consumerClosed p c => some (.consumerClosed roomId p c)
  | .transportCreated p t d i => some (.transportCreated roomId p t d i)
  | .producerCreated p pr t k i => some (.producerCreated roomId p pr t k i)
  | .consumerCreated p c pr t i => some (.consumerCreated roomId p c pr t i)
  | .peerAdded _ _ => none

/-- Peer state: id plus the three resource maps
(src/room-manager.ts, class Peer). -/
structure PeerState where
  id : String
  transports : JsMap TransportHandle
  producers : JsMap ProducerHandle
  consumers : JsMap ConsumerHandle
deriving DecidableEq

/-- `Peer.getInfo()`: snapshot of all three maps. -/
def PeerState.getInfo (p : PeerState) : PeerInfo :=
  ⟨p.id, p.transports.mapValues TransportHandle.info,
    p.producers.mapValues ProducerHandle.info,
    p.consumers.mapValues ConsumerHandle.info⟩

/-- `Peer.findTransport` (safe lookup). -/
def PeerState.findTransport (p : PeerState) (transportId : String) :
    Option TransportHandle :=
  p.transports.get transportId

/-- `Peer.findProducer` (safe lookup). -/
def PeerState.findProducer (p : PeerState) (producerId : String) :
    Option ProducerHandle :=
  p.producers.get producerId

/-- `Peer.findConsumer` (safe lookup). -/
def PeerState.findConsumer (p : PeerState) (consumerId : String) :
    Option ConsumerHandle :=
  p.consumers.get consumerId

/-- One `for (const h of map.values()) h.close()` pass of `Peer.close`.
Each engine close on an open handle synchronously fires the at-close
listener registered at creation time, which deletes the handle from the
live map (the source inserts every handle under its own engine id, so
deleting `handle.id` removes exactly the entry being visited) and emits
the corresponding closed event. A close on an already closed handle is
an engine no-op (no listener fires, the entry survives until `clear`).
A close the engine rejects throws, aborting the whole loop with the
remaining entries untouched. -/
def closeHandles {H : Type} (closed closeFails : H → Bool) (idOf : H → String)
    (emit : String → PeerEvent) : JsMap H → Except Err Unit × JsMap H × List PeerEvent
  | [] => (.ok (), [], [])
  | (k, h) :: rest =>
    if closed h then
      let r := closeHandles closed closeFails idOf emit rest
      (r.1, (k, h) :: r.2.1, r.2.2)
    else if closeFails h then
      (.error .engineError, (k, h) :: rest, [])
    else
      let r := closeHandles closed closeFails idOf emit rest
      (r.1, r.2.1, emit (idOf h) :: r.2.2)

/-- `Peer.close()`: close all consumers, then all producers, then all
transports, clear the three maps, emit `close`. There is no error
guarding in the source: a close call the engine rejects propagates and
the remaining steps are skipped. -/
def PeerState.close (p : PeerState) : Except Err Unit × PeerState × List PeerEvent :=
  let rc := closeHandles ConsumerHandle.closed ConsumerHandle.closeFails
    ConsumerHandle.id PeerEvent.consumerClosed p.consumers
  match rc.1 with
  | .error e => (.error e, { p with consumers := rc.2.1 }, rc.2.2)
  | .ok _ =>
    let rp := closeHandles ProducerHandle.closed ProducerHandle.closeFails
      ProducerHandle.id PeerEvent.producerClosed p.producers
    match rp.1 with
    | .error e =>
      (.error e, { p with consumers := rc.2.1, producers := rp.2.1 },
        rc.2.2 ++ rp.2.2)
    | .ok _ =>
      let rt := closeHandles TransportHandle.closed TransportHandle.closeFails
        TransportHandle.id PeerEvent.transportClosed p.transports
      match rt.1 with
      | .error e =>
        (.error e,
          { p with consumers := rc.2.1, producers := rp.2.1, transports := rt.2.1 },
          rc.2.2 ++ rp.2.2 ++ rt.2.2)
      | .ok _ =>
        (.ok (),
          { p with
              consumers := JsMap.empty
              producers := JsMap.empty
              transports := JsMap.empty },
          rc.2.2 ++ rp.2.2 ++ rt.2.2 ++ [PeerEvent.close])

/-- Engine reply for `router.createWebRtcTransport`. -/
structure NewTransport where
  id : String
  iceParameters : String
  iceCandidates : String
  dtlsParameters : String
  sctpParameters : Option String
  closeFails : Bool
deriving DecidableEq

/-- `Peer.createTransport(direction, options)`: `room.getRouter()` (throws
when the router is not initialized), awaits the engine, stores the
handle under the engine-assigned id, registers close listeners and
emits `transportCreated`. The reply oracle stands for the awaited
`createWebRtcTransport` call (options merged over configured defaults). -/
def PeerState.createTransport (p : PeerState) (router : Option Router)
    (direction : Direction) (eng : Except Unit NewTransport) :
    Except Err TransportInfo × PeerState × List PeerEvent :=
  match router with
  | none => (.error (.notInitialized "Router not initialized"), p, [])
  | some _ =>
    match eng with
    | .error _ => (.error .engineError, p, [])
    | .ok nt =>
      let h : TransportHandle :=
        ⟨nt.id, nt.iceParameters, nt.iceCandidates, nt.dtlsParameters,
          nt.sctpParameters, false, nt.closeFails⟩
      (.ok h.info, { p with transports := p.transports.set nt.id h },
        [.transportCreated nt.id direction h.info])

/-- `Peer.connectTransport(transportId, dtlsParameters)`: strict lookup,
then the awaited engine connect; engine failures propagate unchanged. -/
def PeerState.connectTransport (p : PeerState) (transportId : String)
    (eng : Except Unit Unit) : Except Err Unit × PeerState × List PeerEvent :=
  match p.transports.get transportId with
  | none =>
    (.error (.notFound ("Transport " ++ transportId ++ " not found for peer " ++ p.id)),
      p, [])
  | some _ =>
    match eng with
    | .error _ => (.error .engineError, p, [])
    | .ok _ => (.ok (), p, [])

/-- Engine reply for `transport.produce` (the produced handle echoes
the rtpParameters the caller passed in). -/
structure NewProducer where
  id : String
  kind : MediaKind
  paused : Bool
  closeFails : Bool
deriving DecidableEq

/-- `Peer.createProducer(transportId, kind, rtpParameters)`: strict
transport lookup, awaited engine produce, store under the engine id,
register close listeners, emit `producerCreated`. -/
def PeerState.createProducer (p : PeerState) (transportId : String)
    (kind : MediaKind) (rtpParameters : String) (eng : Except Unit NewProducer) :
    Except Err ProducerInfo × PeerState × List PeerEvent :=
  match p.transports.get transportId with
  | none =>
    (.error (.notFound ("Transport " ++ transportId ++ " not found for peer " ++ p.id)),
      p, [])
  | some _ =>
    match eng with
    | .error _ => (.error .engineError, p, [])
    | .ok np =>
      let h : ProducerHandle :=
        ⟨np.id, np.kind, rtpParameters, np.paused, false, np.closeFails⟩
      (.ok h.info, { p with producers := p.producers.set np.id h },
        [.producerCreated np.id transportId kind h.info])

/-- Engine reply for `transport.consume` (together with the outcome of
the follow-up `consumer.resume()` call). -/
structure NewConsumer where
  id : String
  kind : MediaKind
  rtpParameters : String
  closeFails : Bool
  resumeFails : Bool
deriving DecidableEq

/-- `Peer.createConsumer(transportId, producerId, rtpCapabilities)`:
`room.getRouter()`, strict transport lookup, then the
`router.canConsume` compatibility gate — when it reports false the call
returns `null` with no state change and no event. Otherwise the
consumer is created paused, stored, listeners registered, resumed, and
`consumerCreated` is emitted. -/
def PeerState.createConsumer (p : PeerState) (router : Option Router)
    (transportId producerId rtpCapabilities : String)
    (eng : Except Unit NewConsumer) :
    Except Err (Option ConsumerInfo) × PeerState × List PeerEvent :=
  match router with
  | none => (.error (.notInitialized "Router not initialized"), p, [])
  | some rt =>
    match p.transports.get transportId with
    | none =>
      (.error (.notFound ("Transport " ++ transportId ++ " not found for peer " ++ p.id)),
        p, [])
    | some _ =>
      if rt.canConsume producerId rtpCapabilities = false then
        (.ok none, p, [])
      else
        match eng with
        | .error _ => (.error .engineError, p, [])
        | .ok nc =>
          let h : ConsumerHandle :=
            ⟨nc.id, producerId, nc.kind, nc.rtpParameters, true, false, nc.closeFails⟩
          let p1 := { p with consumers := p.consumers.set nc.id h }
          if nc.resumeFails then
            (.error .engineError, p1, [])
          else
            let h2 := { h with paused := false }
            let p2 := { p1 with consumers := p1.consumers.set nc.id h2 }
            (.ok (some h2.info), p2,
              [.consumerCreated nc.id producerId transportId h2.info])

/-- `Peer.closeProducer(producerId)`: strict lookup (`getProducer`
throws when absent), then `producer.close()`. On an open handle the
engine close synchronously fires the at-close listener registered in
createProducer, which deletes `producer.id` from the map and emits
`producerClosed`; the trailing `this.producers.delete(producerId)` of
closeProducer then hits an absent entry. On an already closed handle
the engine close is a no-op and only the trailing delete runs. -/
def PeerState.closeProducer (p : PeerState) (producerId : String) :
    Except Err Unit × PeerState × List PeerEvent :=
  match p.producers.get producerId with
  | none =>
    (.error (.notFound ("Producer " ++ producerId ++ " not found for peer " ++ p.id)),
      p, [])
  | some h =>
    if h.closed then
      (.ok (), { p with producers := p.producers.delete producerId }, [])
    else if h.closeFails then
      (.error .engineError, p, [])
    else
      let p1 := { p with producers := p.producers.delete h.id }
      (.ok (), { p1 with producers := p1.producers.delete producerId },
        [.producerClosed h.id])

/-- `Peer.closeConsumer(consumerId)`: mirror of closeProducer for the
consumer map. -/
def PeerState.closeConsumer (p : PeerState) (consumerId : String) :
    Except Err Unit × PeerState × List PeerEvent :=
  match p.consumers.get consumerId with
  | none =>
    (.error (.notFound ("Consumer " ++ consumerId ++ " not found for peer " ++ p.id)),
      p, [])
  | some h =>
    if h.closed then
      (.ok (), { p with consumers := p.consumers.delete consumerId }, [])
    else if h.closeFails then
      (.error .engineError, p, [])
    else
      let p1 := { p with consumers := p.consumers.delete h.id }
      (.ok (), { p1 with consumers := p1.consumers.delete consumerId },
        [.consumerClosed h.id])

/-- The engine firing the at-close notification for a producer handle
on its own: the listener of createProducer runs (delete from the map,
emit `producerClosed`). The engine fires the notification at most once
per handle — never for a handle it already closed. -/
def PeerState.engineProducerClose (p : PeerState) (producerId : String) :
    PeerState × List PeerEvent :=
  match p.producers.get producerId with
  | none => (p, [])
  | some h =>
    if h.closed then (p, [])
    else ({ p with producers := p.producers.delete h.id }, [.producerClosed h.id])

/-- The engine firing the at-close notification for a consumer handle
on its own: the listener of createConsumer runs. -/
def PeerState.engineConsumerClose (p : PeerState) (consumerId : String) :
    PeerState × List PeerEvent :=
  match p.consumers.get consumerId with
  | none => (p, [])
  | some h =>
    if h.closed then (p, [])
    else ({ p with consumers := p.consumers.delete h.id }, [.consumerClosed h.id])

/-- Room state: id, optional router capability, peer map
(src/room-manager.ts, class Room). -/
structure RoomState where
  id : String
  router : Option Router
  peers : JsMap PeerState
deriving DecidableEq

/-- `Room.getRouter()`: throws when initialize has not completed. -/
def RoomState.getRouter (room : RoomState) : Except Err Router :=
  match room.router with
  | none => .error (.notInitialized "Router not initialized")
  | some rt => .ok rt

/-- `Room.getRtpCapabilities()`: `getRouter().rtpCapabilities`. -/
def RoomState.getRtpCapabilities (room : RoomState) : Except Err String :=
  (room.getRouter).map Router.rtpCapabilities

/-- `Room.findPeer` (safe lookup). -/
def RoomState.findPeer (room : RoomState) (peerId : String) : Option PeerState :=
  room.peers.get peerId

/-- `Room.getInfo()`: id plus a snapshot of every peer. -/
def RoomState.getInfo (room : RoomState) : RoomInfo :=
  ⟨room.id, room.peers.mapValues PeerState.getInfo⟩

/-- `Room.addPeer(peerId)`: duplicate check, construct the Peer, wire
its event re-emission (forwardPeerEvent), register it, emit
`peerAdded {peerId, peerInfo}`. -/
def RoomState.addPeer (room : RoomState) (peerId : String) :
    Except Err PeerInfo × RoomState × List RoomEvent :=
  if room.peers.has peerId then
    (.error (.duplicateKey ("Peer " ++ peerId ++ " already exists in room " ++ room.id)),
      room, [])
  else
    let peer : PeerState := ⟨peerId, JsMap.empty, JsMap.empty, JsMap.empty⟩
    (.ok peer.getInfo, { room with peers := room.peers.set peerId peer },
      [.peerAdded peerId peer.getInfo])

/-- `Room.removePeer(peerId)`: strict lookup, `await peer.close()` (a
failure propagates, leaving the partially closed peer registered), then
delete from the map. Peer events bubble through forwardPeerEvent. -/
def RoomState.removePeer (room : RoomState) (peerId : String) :
    Except Err Unit × RoomState × List RoomEvent :=
  match room.peers.get peerId with
  | none =>
    (.error (.notFound ("Peer " ++ peerId ++ " not found in room " ++ room.id)),
      room, [])
  | some peer =>
    let r := peer.close
    match r.1 with
    | .error e =>
      (.error e, { room with peers := room.peers.set peerId r.2.1 },
        (r.2.2).map (forwardPeerEvent peerId))
    | .ok _ =>
      (.ok (), { room with peers := (room.peers.set peerId r.2.1).delete peerId },
        (r.2.2).map (forwardPeerEvent peerId))

/-- The `for (const peer of this.peers.values()) await peer.close()`
loop of `Room.close`: peers are closed in map order, mutated peer
objects stay in the map (Room.close never deletes from `peers`), and a
failing peer close aborts the loop. -/
def closePeers : List (String × PeerState) → Except Err Unit × JsMap PeerState × List RoomEvent
  | [] => (.ok (), [], [])
  | (k, p) :: rest =>
    let r := p.close
    match r.1 with
    | .error e => (.error e, (k, r.2.1) :: rest, (r.2.2).map (forwardPeerEvent k))
    | .ok _ =>
      let rr := closePeers rest
      (rr.1, (k, r.2.1) :: rr.2.1, (r.2.2).map (forwardPeerEvent k) ++ rr.2.2)

/-- `Room.close()`: close every peer, release the router (an engine
call with no tracked state; the `router` field itself is not nulled by
the source), emit `close`. -/
def RoomState.close (room : RoomState) : Except Err Unit × RoomState × List RoomEvent :=
  let r := closePeers room.peers
  match r.1 with
  | .error e => (.error e, { room with peers := r.2.1 }, r.2.2)
  | .ok _ => (.ok (), { room with peers := r.2.1 }, r.2.2 ++ [RoomEvent.close])

/-- Registry state: the room map of the RoomManager. -/
structure ManagerState where
  rooms : JsMap RoomState
deriving DecidableEq

/-- Fresh RoomManager (`new RoomManager(worker)`). -/
def ManagerState.init : ManagerState := ⟨JsMap.empty⟩

/-- `RoomManager.findRoom` (safe lookup). -/
def ManagerState.findRoom (st : ManagerState) (roomId : String) : Option RoomState :=
  st.rooms.get roomId

/-- `RoomManager.getRoomInfo`. -/
def ManagerState.getRoomInfo (st : ManagerState) (roomId : String) : Option RoomInfo :=
  (st.findRoom roomId).map RoomState.getInfo

/-- `RoomManager.getAllRooms`. -/
def ManagerState.getAllRooms (st : ManagerState) : List RoomInfo :=
  st.rooms.values.map RoomState.getInfo

/-- `RoomManager.createRoom(roomId, options)`: duplicate check, wire the
eight event listeners (forwardRoomEvent), `await room.initialize()` —
the reply oracle stands for the awaited `worker.createRouter` call with
the configured mediaCodecs merged with options; a failure propagates
and the room is never registered — then register the room and emit
`roomCreated {roomId, roomInfo}`. -/
def ManagerState.createRoomCmd (st : ManagerState) (roomId : String)
    (engineInit : Except Unit Router) :
    Except Err RoomInfo × ManagerState × List RegistryEvent :=
  if st.rooms.has roomId then
    (.error (.duplicateKey ("Room " ++ roomId ++ " already exists")), st, [])
  else
    match engineInit with
    | .error _ => (.error .engineError, st, [])
    | .ok router =>
      let room : RoomState := ⟨roomId, some router, JsMap.empty⟩
      (.ok room.getInfo, ⟨st.rooms.set roomId room⟩,
        [.roomCreated roomId room.getInfo])

/-- `RoomManager.closeRoom(roomId)`: strict `getRoom`, `await
room.close()` (bubbled events pass through forwardRoomEvent; the final
room `close` event becomes `roomClosed`), then delete the entry. -/
def ManagerState.closeRoomCmd (st : ManagerState) (roomId : String) :
    Except Err Unit × ManagerState × List RegistryEvent :=
  match st.rooms.get roomId with
  | none => (.error (.notFound ("Room " ++ roomId ++ " not found")), st, [])
  | some room =>
    let r := room.close
    match r.1 with
    | .error e =>
      (.error e, ⟨st.rooms.set roomId r.2.1⟩,
        (r.2.2).filterMap (forwardRoomEvent roomId))
    | .ok _ =>
      (.ok (), ⟨(st.rooms.set roomId r.2.1).delete roomId⟩,
        (r.2.2).filterMap (forwardRoomEvent roomId))

/-- Command routing of the message handler for room-scoped mutations:
`getRoom` (strict), run the room operation, write the mutated room
back, bubble its events through the manager listeners. -/
def ManagerState.roomCmd {α : Type} (st : ManagerState) (roomId : String)
    (f : RoomState → Except Err α × RoomState × List RoomEvent) :
    Except Err α × ManagerState × List RegistryEvent :=
  match st.rooms.get roomId with
  | none => (.error (.notFound ("Room " ++ roomId ++ " not found")), st, [])
  | some room =>
    let r := f room
    (r.1, ⟨st.rooms.set roomId r.2.1⟩, (r.2.2).filterMap (forwardRoomEvent roomId))

/-- `handleAddPeer`: `getRoom(roomId)` then `room.addPeer(peerId)`. -/
def ManagerState.addPeerCmd (st : ManagerState) (roomId peerId : String) :
    Except Err PeerInfo × ManagerState × List RegistryEvent :=
  st.roomCmd roomId (fun room => room.addPeer peerId)

/-- `handleRemovePeer`: `getRoom(roomId)` then `room.removePeer(peerId)`. -/
def ManagerState.removePeerCmd (st : ManagerState) (roomId peerId : String) :
    Except Err Unit × ManagerState × List RegistryEvent :=
  st.roomCmd roomId (fun room => room.removePeer peerId)

/-- Room-level part of a peer-scoped command: `getPeer` (strict), run
the peer operation against the room router, write the mutated peer
back, tag its events with the peer id. -/
def RoomState.peerSubCmd {α : Type} (room : RoomState) (peerId : String)
    (f : Option Router → PeerState → Except Err α × PeerState × List PeerEvent) :
    Except Err α × RoomState × List RoomEvent :=
  match room.peers.get peerId with
  | none =>
    (.error (.notFound ("Peer " ++ peerId ++ " not found in room " ++ room.id)),
      room, [])
  | some peer =>
    let r := f room.router peer
    (r.1, { room with peers := room.peers.set peerId r.2.1 },
      (r.2.2).map (forwardPeerEvent peerId))

/-- Command routing for peer-scoped mutations: `getRoom` then `getPeer`
(both strict), run the peer operation against the room router, write
the mutated peer back, bubble its events through Room and manager
listeners. -/
def ManagerState.peerCmd {α : Type} (st : ManagerState) (roomId peerId : String)
    (f : Option Router → PeerState → Except Err α × PeerState × List PeerEvent) :
    Except Err α × ManagerState × List RegistryEvent :=
  st.roomCmd roomId (fun room => room.peerSubCmd peerId f)

/-- `handleCreateTransport`. -/
def ManagerState.createTransportCmd (st : ManagerState) (roomId peerId : String)
    (direction : Direction) (eng : Except Unit NewTransport) :
    Except Err TransportInfo × ManagerState × List RegistryEvent :=
  st.peerCmd roomId peerId (fun router peer => peer.createTransport router direction eng)

/-- `handleConnectTransport`. -/
def ManagerState.connectTransportCmd (st : ManagerState)
    (roomId peerId transportId : String) (eng : Except Unit Unit) :
    Except Err Unit × ManagerState × List RegistryEvent :=
  st.peerCmd roomId peerId (fun _ peer => peer.connectTransport transportId eng)

/-- `handleCreateProducer`. -/
def ManagerState.createProducerCmd (st : ManagerState)
    (roomId peerId transportId : String) (kind : MediaKind)
    (rtpParameters : String) (eng : Except Unit NewProducer) :
    Except Err ProducerInfo × ManagerState × List RegistryEvent :=
  st.peerCmd roomId peerId
    (fun _ peer => peer.createProducer transportId kind rtpParameters eng)

/-- `handleCreateConsumer`. -/
def ManagerState.createConsumerCmd (st : ManagerState)
    (roomId peerId transportId producerId rtpCapabilities : String)
    (eng : Except Unit NewConsumer) :
    Except Err (Option ConsumerInfo) × ManagerState × List RegistryEvent :=
  st.peerCmd roomId peerId (fun router peer =>
    peer.createConsumer router transportId producerId rtpCapabilities eng)

/-- `handleCloseProducer`. -/
def ManagerState.closeProducerCmd (st : ManagerState)
    (roomId peerId producerId : String) :
    Except Err Unit × ManagerState × List RegistryEvent :=
  st.peerCmd roomId peerId (fun _ peer => peer.closeProducer producerId)

/-- `handleCloseConsumer`. -/
def ManagerState.closeConsumerCmd (st : ManagerState)
    (roomId peerId consumerId : String) :
    Except Err Unit × ManagerState × List RegistryEvent :=
  st.peerCmd roomId peerId (fun _ peer => peer.closeConsumer consumerId)

/-- Response envelope of the message handler; `data` carries the
payload or null, `errorCode` models the `error.code` field of a failure
response. -/
structure Response (α : Type) where
  id : String
  success : Bool
  data : Option α
  errorCode : Option String
deriving DecidableEq

/-- Producer detail returned by `handleGetProducerInfo`. -/
structure ProducerQueryInfo where
  id : String
  kind : MediaKind
  rtpParameters : String
  paused : Bool
deriving DecidableEq

/-- Consumer detail returned by `handleGetConsumerInfo`. -/
structure ConsumerQueryInfo where
  id : String
  producerId : String
  kind : MediaKind
  rtpParameters : String
  paused : Bool
deriving DecidableEq

/-- `MessageHandler.handleGetPeerInfo`: safe lookups only — a missing
room or peer is reported as a successful null payload, never an error. -/
def handleGetPeerInfo (st : ManagerState) (msgId roomId peerId : String) :
    Response PeerInfo :=
  match st.findRoom roomId with
  | none => ⟨msgId, true, none, none⟩
  | some room =>
    match room.findPeer peerId with
    | none => ⟨msgId, true, none, none⟩
    | some peer => ⟨msgId, true, some peer.getInfo, none⟩

/-- `MessageHandler.handleGetTransportInfo`: safe lookup chain
room → peer → transport, each miss a successful null payload. -/
def handleGetTransportInfo (st : ManagerState)
    (msgId roomId peerId transportId : String) : Response TransportInfo :=
  match st.findRoom roomId with
  | none => ⟨msgId, true, none, none⟩
  | some room =>
    match room.findPeer peerId with
    | none => ⟨msgId, true, none, none⟩
    | some peer =>
      match peer.findTransport transportId with
      | none => ⟨msgId, true, none, none⟩
      | some t => ⟨msgId, true, some t.info, none⟩

/-- `MessageHandler.handleGetProducerInfo`. -/
def handleGetProducerInfo (st : ManagerState)
    (msgId roomId peerId producerId : String) : Response ProducerQueryInfo :=
  match st.findRoom roomId with
  | none => ⟨msgId, true, none, none⟩
  | some room =>
    match room.findPeer peerId with
    | none => ⟨msgId, true, none, none⟩
    | some peer =>
      match peer.findProducer producerId with
      | none => ⟨msgId, true, none, none⟩
      | some pr => ⟨msgId, true, some ⟨pr.id, pr.kind, pr.rtpParameters, pr.paused⟩, none⟩

/-- `MessageHandler.handleGetConsumerInfo`. -/
def handleGetConsumerInfo (st : ManagerState)
    (msgId roomId peerId consumerId : String) : Response ConsumerQueryInfo :=
  match st.findRoom roomId with
  | none => ⟨msgId, true, none, none⟩
  | some room =>
    match room.findPeer peerId with
    | none => ⟨msgId, true, none, none⟩
    | some peer =>
      match peer.findConsumer consumerId with
      | none => ⟨msgId, true, none, none⟩
      | some c =>
        ⟨msgId, true, some ⟨c.id, c.producerId, c.kind, c.rtpParameters, c.paused⟩, none⟩

/-- One dispatcher command against the manager: every mutating
operation of the command surface, with arbitrary arguments and
arbitrary engine replies. -/
inductive Step : ManagerState → ManagerState → Prop
  | createRoom (st : ManagerState) (roomId : String) (init : Except Unit Router) :
      Step st (st.createRoomCmd roomId init).2.1
  | closeRoom (st : ManagerState) (roomId : String) :
      Step st (st.closeRoomCmd roomId).2.1
  | addPeer (st : ManagerState) (roomId peerId : String) :
      Step st (st.addPeerCmd roomId peerId).2.1
  | removePeer (st : ManagerState) (roomId peerId : String) :
      Step st (st.removePeerCmd roomId peerId).2.1
  | createTransport (st : ManagerState) (roomId peerId : String)
      (direction : Direction) (eng : Except Unit NewTransport) :
      Step st (st.createTransportCmd roomId peerId direction eng).2.1
  | connectTransport (st : ManagerState) (roomId peerId transportId : String)
      (eng : Except Unit Unit) :
      Step st (st.connectTransportCmd roomId peerId transportId eng).2.1
  | createProducer (st : ManagerState) (roomId peerId transportId : String)
      (kind : MediaKind) (rtpParameters : String) (eng : Except Unit NewProducer) :
      Step st (st.createProducerCmd roomId peerId transportId kind rtpParameters eng).2.1
  | createConsumer (st : ManagerState)
      (roomId peerId transportId producerId rtpCapabilities : String)
      (eng : Except Unit NewConsumer) :
      Step st (st.createConsumerCmd roomId peerId transportId producerId rtpCapabilities eng).2.1
  | closeProducer (st : ManagerState) (roomId peerId producerId : String) :
      Step st (st.closeProducerCmd roomId peerId producerId).2.1
  | closeConsumer (st : ManagerState) (roomId peerId consumerId : String) :
      Step st (st.closeConsumerCmd roomId peerId consumerId).2.1

/-- Manager states reachable from process start by dispatcher commands. -/
inductive Reachable : ManagerState → Prop
  | init : Reachable ManagerState.init
  | step {st st' : ManagerState} : Reachable st → Step st st' → Reachable st'

/-- Every registered room has an initialized (non-null) router. -/
def RouterInv (st : ManagerState) : Prop :=
  ∀ roomId room, st.rooms.get roomId = some room → room.router.isSome = true

theorem closeHandles_allOpen {H : Type} (closed closeFails : H → Bool)
    (idOf : H → String) (emit : String → PeerEvent) (m : JsMap H)
    (h : ∀ e ∈ m, closed e.2 = false ∧ closeFails e.2 = false) :
    closeHandles closed closeFails idOf emit m
      = (.ok (), [], m.map (fun e => emit (idOf e.2))) := by
  induction m with
  | nil => rfl
  | cons e rest ih =>
    obtain ⟨k, hd⟩ := e
    have he := h (k, hd) (by simp)
    have hrest : ∀ e ∈ rest, closed e.2 = false ∧ closeFails e.2 = false :=
      fun e hm => h e (by simp [hm])
    simp only [closeHandles, he.1, he.2, Bool.false_eq_true, if_false,
      ih hrest, List.map_cons]


theorem PeerState.close_ok_full_teardown (p : PeerState) (h : (p.close).1 = .ok ()) :
    p.close = (.ok (),
      { p with
          consumers := JsMap.empty
          producers := JsMap.empty
          transports := JsMap.empty },
      (closeHandles ConsumerHandle.closed ConsumerHandle.closeFails
        ConsumerHandle.id PeerEvent.consumerClosed p.consumers).2.2
      ++ (closeHandles ProducerHandle.closed ProducerHandle.closeFails
        ProducerHandle.id PeerEvent.producerClosed p.producers).2.2
      ++ (closeHandles TransportHandle.closed TransportHandle.closeFails
        TransportHandle.id PeerEvent.transportClosed p.transports).2.2
      ++ [PeerEvent.close]) := by
  unfold PeerState.close at h ⊢
  rcases hc : closeHandles ConsumerHandle.closed ConsumerHandle.closeFails
    ConsumerHandle.id PeerEvent.consumerClosed p.consumers with ⟨rc1, rcm, rce⟩
  rw [hc] at h
  cases rc1 with
  | error e => simp at h
  | ok u =>
    rcases hp : closeHandles ProducerHandle.closed ProducerHandle.closeFails
      ProducerHandle.id PeerEvent.producerClosed p.producers with ⟨rp1, rpm, rpe⟩
    rw [hp] at h
    cases rp1 with
    | error e => simp at h
    | ok v =>
      rcases ht : closeHandles TransportHandle.closed TransportHandle.closeFails
        TransportHandle.id PeerEvent.transportClosed p.transports with ⟨rt1, rtm, rte⟩
      rw [ht] at h
      cases rt1 with
      | error e => simp at h
      | ok w => rfl

theorem RoomState.close_ok_decomp (room : RoomState) (h : (room.close).1 = .ok ()) :
    room.close = (.ok (), { room with peers := (closePeers room.peers).2.1 },
      (closePeers room.peers).2.2 ++ [RoomEvent.close]) := by
  unfold RoomState.close at h ⊢
  rcases hc : closePeers room.peers with ⟨res, m, evs⟩
  rw [hc] at h
  cases res with
  | error e => simp at h
  | ok u => rfl

theorem RoomState.close_router (room : RoomState) :
    ((room.close).2.1).router = room.router := by
  unfold RoomState.close
  rcases hc : closePeers room.peers with ⟨res, m, evs⟩
  cases res <;> rfl

theorem RoomState.addPeer_router (room : RoomState) (peerId : String) :
    ((room.addPeer peerId).2.1).router = room.router := by
  unfold RoomState.addPeer
  split <;> rfl

theorem RoomState.removePeer_router (room : RoomState) (peerId : String) :
    ((room.removePeer peerId).2.1).router = room.router := by
  rcases hg : room.peers.get peerId with _ | peer
  · simp only [RoomState.removePeer, hg]
  · simp only [RoomState.removePeer, hg]
    rcases hc : peer.close with ⟨res, p2, evs⟩
    cases res <;> rfl

theorem RoomState.peerSubCmd_router {α : Type} (room : RoomState) (peerId : String)
    (f : Option Router → PeerState → Except Err α × PeerState × List PeerEvent) :
    ((room.peerSubCmd peerId f).2.1).router = room.router := by
  unfold RoomState.peerSubCmd
  cases hg : room.peers.get peerId with
  | none => rfl
  | some peer => rfl

theorem roomCmd_routerInv {α : Type} (st : ManagerState) (roomId : String)
    (f : RoomState → Except Err α × RoomState × List RoomEvent)
    (hf : ∀ room, ((f room).2.1).router = room.router)
    (h : RouterInv st) : RouterInv (st.roomCmd roomId f).2.1 := by
  unfold ManagerState.roomCmd
  cases hg : st.rooms.get roomId with
  | none => exact h
  | some room =>
    show ∀ k rm, (st.rooms.set roomId ((f room).2.1)).get k = some rm →
      rm.router.isSome = true
    intro k rm hk
    rw [JsMap.get_set] at hk
    by_cases hkr : k = roomId
    · rw [if_pos hkr] at hk
      obtain rfl := Option.some.inj hk
      rw [hf room]
      exact h roomId room hg
    · rw [if_neg hkr] at hk
      exact h k rm hk

theorem createRoomCmd_routerInv (st : ManagerState) (roomId : String)
    (init : Except Unit Router) (h : RouterInv st) :
    RouterInv (st.createRoomCmd roomId init).2.1 := by
  unfold ManagerState.createRoomCmd
  by_cases hh : st.rooms.has roomId = true
  · rw [if_pos hh]
    exact h
  · rw [if_neg hh]
    cases init with
    | error e => exact h
    | ok router =>
      show ∀ k rm, (st.rooms.set roomId ⟨roomId, some router, JsMap.empty⟩).get k
        = some rm → rm.router.isSome = true
      intro k rm hk
      rw [JsMap.get_set] at hk
      by_cases hkr : k = roomId
      · rw [if_pos hkr] at hk
        obtain rfl := Option.some.inj hk
        rfl
      · rw [if_neg hkr] at hk
        exact h k rm hk

theorem closeRoomCmd_routerInv (st : ManagerState) (roomId : String)
    (h : RouterInv st) : RouterInv (st.closeRoomCmd roomId).2.1 := by
  rcases hg : st.rooms.get roomId with _ | room
  · simp only [ManagerState.closeRoomCmd, hg]
    exact h
  · have hcr := RoomState.close_router room
    simp only [ManagerState.closeRoomCmd, hg]
    rcases hc : room.close with ⟨res, room2, evs⟩
    rw [hc] at hcr
    have h2 : room2.router = room.router := hcr
    cases res with
    | error e =>
      show ∀ k rm, (st.rooms.set roomId room2).get k = some rm →
        rm.router.isSome = true
      intro k rm hk
      rw [JsMap.get_set] at hk
      by_cases hkr : k = roomId
      · rw [if_pos hkr] at hk
        obtain rfl := Option.some.inj hk
        rw [h2]
        exact h roomId room hg
      · rw [if_neg hkr] at hk
        exact h k rm hk
    | ok u =>
      show ∀ k rm, ((st.rooms.set roomId room2).delete roomId).get k = some rm →
        rm.router.isSome = true
      intro k rm hk
      rw [JsMap.get_delete] at hk
      by_cases hkr : k = roomId
      · rw [if_pos hkr] at hk
        cases hk
      · rw [if_neg hkr, JsMap.get_set, if_neg hkr] at hk
        exact h k rm hk

theorem reachable_routerInv {st : ManagerState} (h : Reachable st) : RouterInv st := by
  induction h with
  | init =>
    intro k rm hk
    cases hk
  | step hr hs ih =>
    cases hs with
    | createRoom roomId init => exact createRoomCmd_routerInv _ roomId init ih
    | closeRoom roomId => exact closeRoomCmd_routerInv _ roomId ih
    | addPeer roomId peerId =>
      exact roomCmd_routerInv _ roomId _ (fun room => room.addPeer_router peerId) ih
    | removePeer roomId peerId =>
      exact roomCmd_routerInv _ roomId _ (fun room => room.removePeer_router peerId) ih
    | createTransport roomId peerId direction eng =>
      exact roomCmd_routerInv _ roomId _ (fun room => room.peerSubCmd_router peerId _) ih
    | connectTransport roomId peerId transportId eng =>
      exact roomCmd_routerInv _ roomId _ (fun room => room.peerSubCmd_router peerId _) ih
    | createProducer roomId peerId transportId kind rtpParameters eng =>
      exact roomCmd_routerInv _ roomId _ (fun room => room.peerSubCmd_router peerId _) ih
    | createConsumer roomId peerId transportId producerId rtpCapabilities eng =>
      exact roomCmd_routerInv _ roomId _ (fun room => room.peerSubCmd_router peerId _) ih
    | closeProducer roomId peerId producerId =>
      exact roomCmd_routerInv _ roomId _ (fun room => room.peerSubCmd_router peerId _) ih
    | closeConsumer roomId peerId consumerId =>
      exact roomCmd_routerInv _ roomId _ (fun room => room.peerSubCmd_router peerId _) ih

/-- Concrete router with an empty compatibility table. -/
def sampleRouter : Router := ⟨"caps", []⟩

/-- Concrete open transport handle whose close succeeds. -/
def sampleTransportHandle : TransportHandle :=
  ⟨"t1", "ice", "cand", "dtls", none, false, false⟩

/-- Concrete open producer handle whose close succeeds. -/
def sampleProducerHandle : ProducerHandle := ⟨"pr1", .audio, "rtp", false, false, false⟩

/-- Concrete open consumer handle whose close succeeds. -/
def sampleConsumerHandle : ConsumerHandle := ⟨"c1", "src", .audio, "rtp", false, false, false⟩

/-- Concrete open consumer handle whose engine close call fails. -/
def failingConsumerHandle : ConsumerHandle := ⟨"c1", "src", .audio, "rtp", false, false, true⟩

/-- Claim C1: the claim says every child Room event, peerAdded
included, is re-emitted by the manager with roomId attached. The
listener set of RoomManager.createRoom has no entry for `peerAdded`,
so the event is dropped: forwarding it yields no registry event, and an
addPeer on a registered room — after which the Room itself emits
`peerAdded` — produces an empty registry event list. The event sink in
main.ts subscribes to `peerAdded` on the manager, so this subscription
can never fire. -/
theorem peerAdded_dropped_at_registry :
    forwardRoomEvent "r1" (RoomEvent.peerAdded "p1" ⟨"p1", [], [], []⟩) = none
    ∧ (RoomState.addPeer ⟨"r1", some sampleRouter, []⟩ "p1").2.2
        = [RoomEvent.peerAdded "p1" ⟨"p1", [], [], []⟩]
    ∧ (ManagerState.addPeerCmd ⟨[("r1", ⟨"r1", some sampleRouter, []⟩)]⟩ "r1" "p1").2.2
        = [] := by
  refine ⟨rfl, rfl, rfl⟩

/-- Claim C3: a second createRoom for the same id without an
intervening closeRoom fails with the DuplicateKey error, emits nothing,
and leaves the manager state exactly as it was after the first call. -/
theorem createRoom_duplicate (st : ManagerState) (roomId : String)
    (init1 init2 : Except Unit Router) (info : RoomInfo)
    (h : (st.createRoomCmd roomId init1).1 = .ok info) :
    ((st.createRoomCmd roomId init1).2.1).createRoomCmd roomId init2
      = (.error (.duplicateKey ("Room " ++ roomId ++ " already exists")),
        (st.createRoomCmd roomId init1).2.1, []) := by
  have hstate : ((st.createRoomCmd roomId init1).2.1).rooms.has roomId = true := by
    unfold ManagerState.createRoomCmd at h ⊢
    by_cases hh : st.rooms.has roomId = true
    · rw [if_pos hh] at h
      simp at h
    · rw [if_neg hh] at h ⊢
      cases init1 with
      | error e => simp at h
      | ok router =>
        show (st.rooms.set roomId ⟨roomId, some router, JsMap.empty⟩).has roomId = true
        unfold JsMap.has
        rw [JsMap.get_set, if_pos rfl]
        rfl
  set st1 := (st.createRoomCmd roomId init1).2.1 with hst1
  unfold ManagerState.createRoomCmd
  rw [if_pos hstate]

/-- Witness for C3 at a concrete input. -/
theorem createRoom_duplicate_witness :
    ((ManagerState.init.createRoomCmd "r1" (.ok sampleRouter)).2.1).createRoomCmd
        "r1" (.ok sampleRouter)
      = (.error (.duplicateKey ("Room " ++ "r1" ++ " already exists")),
        (ManagerState.init.createRoomCmd "r1" (.ok sampleRouter)).2.1, []) :=
  createRoom_duplicate ManagerState.init "r1" (.ok sampleRouter) (.ok sampleRouter)
    (RoomState.getInfo ⟨"r1", some sampleRouter, JsMap.empty⟩) rfl

/-- Claim C4: when the awaited router acquisition fails during
createRoom, the error propagates, the room is not registered, no event
is emitted, and findRoom/getRoomInfo on the resulting state return
null. -/
theorem createRoom_initFail_not_registered (st : ManagerState) (roomId : String)
    (h : st.rooms.has roomId = false) :
    st.createRoomCmd roomId (.error ()) = (.error .engineError, st, [])
    ∧ ((st.createRoomCmd roomId (.error ())).2.1).findRoom roomId = none
    ∧ ((st.createRoomCmd roomId (.error ())).2.1).getRoomInfo roomId = none := by
  have h1 : st.createRoomCmd roomId (.error ()) = (.error .engineError, st, []) := by
    unfold ManagerState.createRoomCmd
    rw [if_neg (by rw [h]; simp)]
  have h2 : st.findRoom roomId = none := by
    show st.rooms.get roomId = none
    exact JsMap.get_none_of_has_false st.rooms roomId h
  refine ⟨h1, ?_, ?_⟩
  · rw [h1]
    exact h2
  · rw [h1]
    show (ManagerState.findRoom st roomId).map RoomState.getInfo = none
    rw [h2]
    rfl

/-- Witness for C4 at a concrete input. -/
theorem createRoom_initFail_witness :
    ManagerState.init.createRoomCmd "r1" (.error ())
        = (.error .engineError, ManagerState.init, [])
    ∧ ((ManagerState.init.createRoomCmd "r1" (.error ())).2.1).findRoom "r1" = none
    ∧ ((ManagerState.init.createRoomCmd "r1" (.error ())).2.1).getRoomInfo "r1" = none :=
  createRoom_initFail_not_registered ManagerState.init "r1" rfl

/-- Claim C6: createConsumer whose rtpCapabilities the router reports
as incompatible with the producerId returns null rather than an error,
leaves the peer state (in particular the consumer map) unchanged, and
emits no event. -/
theorem createConsumer_incompatible (p : PeerState) (rt : Router)
    (tr : TransportHandle) (transportId producerId rtpCapabilities : String)
    (eng : Except Unit NewConsumer)
    (htr : p.transports.get transportId = some tr)
    (hcc : rt.canConsume producerId rtpCapabilities = false) :
    p.createConsumer (some rt) transportId producerId rtpCapabilities eng
      = (.ok none, p, []) := by
  simp [PeerState.createConsumer, htr, hcc]

/-- Witness for C6 at a concrete input (empty compatibility table). -/
theorem createConsumer_incompatible_witness :
    PeerState.createConsumer ⟨"p1", [("t1", sampleTransportHandle)], [], []⟩
        (some sampleRouter) "t1" "src" "caps2" (.error ())
      = (.ok none, ⟨"p1", [("t1", sampleTransportHandle)], [], []⟩, []) :=
  createConsumer_incompatible ⟨"p1", [("t1", sampleTransportHandle)], [], []⟩
    sampleRouter sampleTransportHandle "t1" "src" "caps2" (.error ()) rfl rfl

/-- Claim C9: handleGetPeerInfo is a total function on the model (it
never throws): a missing room yields a successful null payload, a
missing peer within an existing room yields a successful null payload,
and otherwise the live snapshot is returned, always with success true
and no error code. -/
theorem getPeerInfo_never_throws (st : ManagerState) (msgId roomId peerId : String) :
    (handleGetPeerInfo st msgId roomId peerId).success = true
    ∧ (handleGetPeerInfo st msgId roomId peerId).errorCode = none
    ∧ (st.findRoom roomId = none →
        (handleGetPeerInfo st msgId roomId peerId).data = none)
    ∧ (∀ room, st.findRoom roomId = some room → room.findPeer peerId = none →
        (handleGetPeerInfo st msgId roomId peerId).data = none)
    ∧ (∀ room peer, st.findRoom roomId = some room →
        room.findPeer peerId = some peer →
        (handleGetPeerInfo st msgId roomId peerId).data = some peer.getInfo) := by
  refine ⟨?_, ?_, ?_, ?_, ?_⟩
  · rcases hr : st.findRoom roomId with _ | room
    · simp [handleGetPeerInfo, hr]
    · rcases hp : room.findPeer peerId with _ | peer <;>
        simp [handleGetPeerInfo, hr, hp]
  · rcases hr : st.findRoom roomId with _ | room
    · simp [handleGetPeerInfo, hr]
    · rcases hp : room.findPeer peerId with _ | peer <;>
        simp [handleGetPeerInfo, hr, hp]
  · intro hr
    simp [handleGetPeerInfo, hr]
  · intro room hr hp
    simp [handleGetPeerInfo, hr, hp]
  · intro room peer hr hp
    simp [handleGetPeerInfo, hr, hp]

/-- Witness for C9 at concrete inputs: missing room on the initial
state, and a present room with a present peer. -/
theorem getPeerInfo_never_throws_witness :
    (handleGetPeerInfo ManagerState.init "m1" "r1" "p1").success = true
    ∧ (handleGetPeerInfo ManagerState.init "m1" "r1" "p1").data = none
    ∧ (handleGetPeerInfo ⟨[("r1", ⟨"r1", some sampleRouter,
        [("p1", ⟨"p1", [], [], []⟩)]⟩)]⟩ "m1" "r1" "p1").data
        = some (PeerState.getInfo ⟨"p1", [], [], []⟩) :=
  ⟨(getPeerInfo_never_throws ManagerState.init "m1" "r1" "p1").1,
   (getPeerInfo_never_throws ManagerState.init "m1" "r1" "p1").2.2.1 rfl,
   (getPeerInfo_never_throws ⟨[("r1", ⟨"r1", some sampleRouter,
       [("p1", ⟨"p1", [], [], []⟩)]⟩)]⟩ "m1" "r1" "p1").2.2.2.2
     ⟨"r1", some sampleRouter, [("p1", ⟨"p1", [], [], []⟩)]⟩
     ⟨"p1", [], [], []⟩ rfl rfl⟩

/-- Claim C7: for a live producer or consumer, the explicit close path
emits the closed event exactly once: the engine close fired inside
closeProducer/closeConsumer runs the at-close listener, whose first
action removes the entry from the map before emitting, and the trailing
delete of the explicit path is a no-op on the absent entry. Afterwards
the entry is gone and a further engine-initiated close notification for
the same id fires nothing (no event, no state change). In the engine
the at-close notification only ever fires from within close(), so this
is the scenario in which both paths fire. -/
theorem closed_events_not_duplicated (p : PeerState) (producerId consumerId : String)
    (hpr : ProducerHandle) (hcn : ConsumerHandle)
    (hgp : p.producers.get producerId = some hpr) (hpid : hpr.id = producerId)
    (hpo : hpr.closed = false) (hpf : hpr.closeFails = false)
    (hgc : p.consumers.get consumerId = some hcn) (hcid : hcn.id = consumerId)
    (hco : hcn.closed = false) (hcf : hcn.closeFails = false) :
    (p.closeProducer producerId
        = (.ok (),
          { p with producers := (p.producers.delete producerId).delete producerId },
          [PeerEvent.producerClosed producerId])
      ∧ ((p.closeProducer producerId).2.1).producers.get producerId = none
      ∧ ((p.closeProducer producerId).2.1).engineProducerClose producerId
          = ((p.closeProducer producerId).2.1, []))
    ∧ (p.closeConsumer consumerId
        = (.ok (),
          { p with consumers := (p.consumers.delete consumerId).delete consumerId },
          [PeerEvent.consumerClosed consumerId])
      ∧ ((p.closeConsumer consumerId).2.1).consumers.get consumerId = none
      ∧ ((p.closeConsumer consumerId).2.1).engineConsumerClose consumerId
          = ((p.closeConsumer consumerId).2.1, [])) := by
  have hp1 : p.closeProducer producerId
      = (.ok (),
        { p with producers := (p.producers.delete producerId).delete producerId },
        [PeerEvent.producerClosed producerId]) := by
    simp only [PeerState.closeProducer, hgp, hpo, hpf, hpid, Bool.false_eq_true,
      if_false]
  have hp2 : ((p.closeProducer producerId).2.1).producers.get producerId = none := by
    rw [hp1]
    show ((p.producers.delete producerId).delete producerId).get producerId = none
    rw [JsMap.get_delete, if_pos rfl]
  have hp3 : ((p.closeProducer producerId).2.1).engineProducerClose producerId
      = ((p.closeProducer producerId).2.1, []) := by
    unfold PeerState.engineProducerClose
    rw [hp2]
  have hc1 : p.closeConsumer consumerId
      = (.ok (),
        { p with consumers := (p.consumers.delete consumerId).delete consumerId },
        [PeerEvent.consumerClosed consumerId]) := by
    simp only [PeerState.closeConsumer, hgc, hco, hcf, hcid, Bool.false_eq_true,
      if_false]
  have hc2 : ((p.closeConsumer consumerId).2.1).consumers.get consumerId = none := by
    rw [hc1]
    show ((p.consumers.delete consumerId).delete consumerId).get consumerId = none
    rw [JsMap.get_delete, if_pos rfl]
  have hc3 : ((p.closeConsumer consumerId).2.1).engineConsumerClose consumerId
      = ((p.closeConsumer consumerId).2.1, []) := by
    unfold PeerState.engineConsumerClose
    rw [hc2]
  exact ⟨⟨hp1, hp2, hp3⟩, ⟨hc1, hc2, hc3⟩⟩

/-- Concrete peer for the C7 witness: one live producer, one live
consumer, keyed by their engine ids. -/
def c7Peer : PeerState :=
  ⟨"p1", [], [("pr1", sampleProducerHandle)], [("c1", sampleConsumerHandle)]⟩

/-- Witness for C7 at a concrete input. -/
theorem closed_events_not_duplicated_witness :
    (PeerState.closeProducer c7Peer "pr1"
        = (.ok (),
          { c7Peer with producers := (c7Peer.producers.delete "pr1").delete "pr1" },
          [PeerEvent.producerClosed "pr1"])
      ∧ ((PeerState.closeProducer c7Peer "pr1").2.1).producers.get "pr1" = none
      ∧ ((PeerState.closeProducer c7Peer "pr1").2.1).engineProducerClose "pr1"
          = ((PeerState.closeProducer c7Peer "pr1").2.1, []))
    ∧ (PeerState.closeConsumer c7Peer "c1"
        = (.ok (),
          { c7Peer with consumers := (c7Peer.consumers.delete "c1").delete "c1" },
          [PeerEvent.consumerClosed "c1"])
      ∧ ((PeerState.closeConsumer c7Peer "c1").2.1).consumers.get "c1" = none
      ∧ ((PeerState.closeConsumer c7Peer "c1").2.1).engineConsumerClose "c1"
          = ((PeerState.closeConsumer c7Peer "c1").2.1, [])) :=
  closed_events_not_duplicated c7Peer "pr1" "c1" sampleProducerHandle
    sampleConsumerHandle rfl rfl rfl rfl rfl rfl rfl rfl

/-- Claim C8: on a peer whose handles are all open and whose engine
close calls all succeed, close() closes all consumers, then all
producers, then all transports — the emitted closed events appear in
exactly that order because each is emitted inside the corresponding
engine close — then all three maps are empty and the `close` event is
emitted last. -/
theorem peer_close_fixed_order (p : PeerState)
    (hc : ∀ e ∈ p.consumers, e.2.closed = false ∧ e.2.closeFails = false)
    (hp : ∀ e ∈ p.producers, e.2.closed = false ∧ e.2.closeFails = false)
    (ht : ∀ e ∈ p.transports, e.2.closed = false ∧ e.2.closeFails = false) :
    p.close = (.ok (),
      { p with
          consumers := JsMap.empty
          producers := JsMap.empty
          transports := JsMap.empty },
      p.consumers.map (fun e => PeerEvent.consumerClosed e.2.id)
        ++ p.producers.map (fun e => PeerEvent.producerClosed e.2.id)
        ++ p.transports.map (fun e => PeerEvent.transportClosed e.2.id)
        ++ [PeerEvent.close]) := by
  unfold PeerState.close
  rw [closeHandles_allOpen _ _ _ _ _ hc, closeHandles_allOpen _ _ _ _ _ hp,
    closeHandles_allOpen _ _ _ _ _ ht]

/-- Concrete peer for the C8 witness: one open resource of each kind. -/
def c8Peer : PeerState :=
  ⟨"p1", [("t1", sampleTransportHandle)], [("pr1", sampleProducerHandle)],
    [("c1", sampleConsumerHandle)]⟩

/-- Witness for C8 at a concrete input. -/
theorem peer_close_fixed_order_witness :
    PeerState.close c8Peer = (.ok (),
      { c8Peer with
          consumers := JsMap.empty
          producers := JsMap.empty
          transports := JsMap.empty },
      c8Peer.consumers.map (fun e => PeerEvent.consumerClosed e.2.id)
        ++ c8Peer.producers.map (fun e => PeerEvent.producerClosed e.2.id)
        ++ c8Peer.transports.map (fun e => PeerEvent.transportClosed e.2.id)
        ++ [PeerEvent.close]) :=
  peer_close_fixed_order c8Peer (by decide) (by decide) (by decide)

/-- Peer for the C2 counterexample: the consumer close fails, the
producer close would succeed but is never attempted. -/
def c2Peer : PeerState :=
  ⟨"p1", [], [("pr1", sampleProducerHandle)], [("c1", failingConsumerHandle)]⟩

/-- Room and manager state for the C2 counterexample. -/
def c2St : ManagerState := ⟨[("r1", ⟨"r1", some sampleRouter, [("p1", c2Peer)]⟩)]⟩

/-- Claim C2 counterexample: closing the peer hits the failing consumer
close first and aborts — the producer close is never attempted (no
producerClosed event is emitted, nothing is emitted at all), removePeer
propagates the engine error, and afterwards the producer that belonged
to the peer is still visible through getProducerInfo (non-null), so the
claimed best-effort cascade and null-after-removePeer both fail on the
code. -/
theorem removePeer_aborts_on_close_failure :
    (ManagerState.removePeerCmd c2St "r1" "p1").1 = .error .engineError
    ∧ (ManagerState.removePeerCmd c2St "r1" "p1").2.2 = []
    ∧ (handleGetProducerInfo (ManagerState.removePeerCmd c2St "r1" "p1").2.1
        "m1" "r1" "p1" "pr1").data = some ⟨"pr1", .audio, "rtp", false⟩ := by
  refine ⟨rfl, rfl, rfl⟩

/-- Claim C2 (amended): Peer.close has no error guarding — a failing
engine close aborts the remaining teardown and the error propagates out
of removePeer, leaving the peer registered (see the counterexample).
When every engine close succeeds, removePeer completes and afterwards
getTransportInfo, getProducerInfo and getConsumerInfo return a
successful null for every id looked up under that peer. -/
theorem removePeer_cascade_complete (st : ManagerState) (roomId peerId : String)
    (room : RoomState) (peer : PeerState)
    (hr : st.rooms.get roomId = some room)
    (hp : room.peers.get peerId = some peer)
    (hok : (peer.close).1 = .ok ()) :
    (st.removePeerCmd roomId peerId).1 = .ok ()
    ∧ ∀ msgId tid pid cid,
        (handleGetTransportInfo (st.removePeerCmd roomId peerId).2.1
          msgId roomId peerId tid).data = none
        ∧ (handleGetProducerInfo (st.removePeerCmd roomId peerId).2.1
          msgId roomId peerId pid).data = none
        ∧ (handleGetConsumerInfo (st.removePeerCmd roomId peerId).2.1
          msgId roomId peerId cid).data = none := by
  rcases hcl : peer.close with ⟨res, p2, evs⟩
  rw [hcl] at hok
  have hres : res = .ok () := hok
  subst hres
  have h1 : st.removePeerCmd roomId peerId
      = (.ok (), ⟨st.rooms.set roomId
          { room with peers := (room.peers.set peerId p2).delete peerId }⟩,
        (evs.map (forwardPeerEvent peerId)).filterMap (forwardRoomEvent roomId)) := by
    simp only [ManagerState.removePeerCmd, ManagerState.roomCmd, hr,
      RoomState.removePeer, hp, hcl]
  refine ⟨by rw [h1], ?_⟩
  intro msgId tid pid cid
  have hfr : ((st.removePeerCmd roomId peerId).2.1).findRoom roomId
      = some { room with peers := (room.peers.set peerId p2).delete peerId } := by
    rw [h1]
    show (st.rooms.set roomId _).get roomId = _
    rw [JsMap.get_set, if_pos rfl]
  have hfp : ({ room with peers := (room.peers.set peerId p2).delete peerId }
      : RoomState).findPeer peerId = none := by
    show ((room.peers.set peerId p2).delete peerId).get peerId = none
    rw [JsMap.get_delete, if_pos rfl]
  refine ⟨?_, ?_, ?_⟩
  · simp [handleGetTransportInfo, hfr, hfp]
  · simp [handleGetProducerInfo, hfr, hfp]
  · simp [handleGetConsumerInfo, hfr, hfp]

/-- Manager state for the C2 witness: one room with one peer that owns
no resources. -/
def c2GoodSt : ManagerState :=
  ⟨[("r1", ⟨"r1", some sampleRouter, [("p1", ⟨"p1", [], [], []⟩)]⟩)]⟩

/-- Witness for the amended C2 at a concrete input. -/
theorem removePeer_cascade_complete_witness :
    (ManagerState.removePeerCmd c2GoodSt "r1" "p1").1 = .ok ()
    ∧ ∀ msgId tid pid cid,
        (handleGetTransportInfo (ManagerState.removePeerCmd c2GoodSt "r1" "p1").2.1
          msgId "r1" "p1" tid).data = none
        ∧ (handleGetProducerInfo (ManagerState.removePeerCmd c2GoodSt "r1" "p1").2.1
          msgId "r1" "p1" pid).data = none
        ∧ (handleGetConsumerInfo (ManagerState.removePeerCmd c2GoodSt "r1" "p1").2.1
          msgId "r1" "p1" cid).data = none :=
  removePeer_cascade_complete c2GoodSt "r1" "p1"
    ⟨"r1", some sampleRouter, [("p1", ⟨"p1", [], [], []⟩)]⟩ ⟨"p1", [], [], []⟩
    rfl rfl rfl

/-- Claim C5: for an existing room whose close succeeds, closeRoom
returns ok, getRoomInfo afterwards returns null, the emitted registry
events include `roomClosed` for that id, and a second closeRoom fails
with the NotFound error, changes nothing and emits nothing — in
particular it does not re-emit `roomClosed`. -/
theorem closeRoom_teardown_idempotent (st : ManagerState) (roomId : String)
    (room : RoomState) (hr : st.rooms.get roomId = some room)
    (hok : (room.close).1 = .ok ()) :
    (st.closeRoomCmd roomId).1 = .ok ()
    ∧ ((st.closeRoomCmd roomId).2.1).getRoomInfo roomId = none
    ∧ RegistryEvent.roomClosed roomId ∈ (st.closeRoomCmd roomId).2.2
    ∧ ((st.closeRoomCmd roomId).2.1).closeRoomCmd roomId
        = (.error (.notFound ("Room " ++ roomId ++ " not found")),
          (st.closeRoomCmd roomId).2.1, []) := by
  have hdec := RoomState.close_ok_decomp room hok
  have h1 : st.closeRoomCmd roomId
      = (.ok (), ⟨(st.rooms.set roomId
            { room with peers := (closePeers room.peers).2.1 }).delete roomId⟩,
        ((closePeers room.peers).2.2 ++ [RoomEvent.close]).filterMap
          (forwardRoomEvent roomId)) := by
    simp only [ManagerState.closeRoomCmd, hr, hdec]
  have hnone : ((st.rooms.set roomId
      { room with peers := (closePeers room.peers).2.1 }).delete roomId).get roomId
      = none := by
    rw [JsMap.get_delete, if_pos rfl]
  refine ⟨by rw [h1], ?_, ?_, ?_⟩
  · rw [h1]
    show (((st.rooms.set roomId _).delete roomId).get roomId).map RoomState.getInfo
      = none
    rw [hnone]
    rfl
  · rw [h1]
    refine List.mem_filterMap.mpr ⟨RoomEvent.close, ?_, rfl⟩
    simp
  · rw [h1]
    simp only [ManagerState.closeRoomCmd, hnone]

/-- Manager state for the C5 witness: one room with no peers. -/
def c5St : ManagerState := ⟨[("r1", ⟨"r1", some sampleRouter, []⟩)]⟩

/-- Witness for C5 at a concrete input. -/
theorem closeRoom_teardown_idempotent_witness :
    (ManagerState.closeRoomCmd c5St "r1").1 = .ok ()
    ∧ ((ManagerState.closeRoomCmd c5St "r1").2.1).getRoomInfo "r1" = none
    ∧ RegistryEvent.roomClosed "r1" ∈ (ManagerState.closeRoomCmd c5St "r1").2.2
    ∧ ((ManagerState.closeRoomCmd c5St "r1").2.1).closeRoomCmd "r1"
        = (.error (.notFound ("Room " ++ "r1" ++ " not found")),
          (ManagerState.closeRoomCmd c5St "r1").2.1, []) :=
  closeRoom_teardown_idempotent c5St "r1" ⟨"r1", some sampleRouter, []⟩ rfl rfl

/-- Claim C10: every room reachable through the registry has an
initialized (non-null) router — createRoom awaits the router before
inserting, no dispatcher command ever clears the field, and closeRoom
removes the whole entry — so getRouter and getRtpCapabilities on a room
obtained from the registry never fail with the router-not-initialized
error. -/
theorem registry_room_router_initialized (st : ManagerState) (hst : Reachable st)
    (roomId : String) (room : RoomState) (h : st.findRoom roomId = some room) :
    ∃ rt : Router, room.router = some rt ∧ room.getRouter = .ok rt
      ∧ room.getRtpCapabilities = .ok rt.rtpCapabilities := by
  have hinv := reachable_routerInv hst roomId room h
  rcases hrt : room.router with _ | rt
  · rw [hrt] at hinv
    simp at hinv
  · refine ⟨rt, rfl, ?_, ?_⟩
    · unfold RoomState.getRouter
      rw [hrt]
    · unfold RoomState.getRtpCapabilities RoomState.getRouter
      rw [hrt]
      rfl

/-- Witness for C10 at a concrete input: the state reached by one
successful createRoom from the initial state. -/
theorem registry_room_router_initialized_witness :
    ∃ rt : Router,
      (RoomState.mk "r1" (some sampleRouter) JsMap.empty).router = some rt
      ∧ RoomState.getRouter ⟨"r1", some sampleRouter, JsMap.empty⟩ = .ok rt
      ∧ RoomState.getRtpCapabilities ⟨"r1", some sampleRouter, JsMap.empty⟩
          = .ok rt.rtpCapabilities :=
  registry_room_router_initialized
    (ManagerState.init.createRoomCmd "r1" (.ok sampleRouter)).2.1
    (Reachable.step Reachable.init
      (Step.createRoom ManagerState.init "r1" (.ok sampleRouter)))
    "r1" ⟨"r1", some sampleRouter, JsMap.empty⟩ rfl
